import Mathlib

/-!
Verification of the decision-and-plan-execution core of the agentic CX
proof-of-concept: the rule-based decision engine (src/agent/decision.py), the
planner (src/agent/planner.py), the plan executor (src/agent/executor.py) and
the tool registry (src/agent/tools.py), shallowly embedded in Lean.

Python mappings are embedded as association lists with first-occurrence lookup
and replace-first update (the observable behaviour of insertion-ordered Python
dicts built by item assignment).  Python runtime errors (KeyError, IndexError,
TypeError) are made explicit through the `Except` monad.  Numbers are embedded
as rationals; the numeric literals occurring in the sources (confidences,
slot limits) are all exactly representable.
-/

namespace AgenticCX

mutual

/-- Embedded Python value (None, bool, number, string, list, dict). -/
inductive Value where
  | null
  | bool (b : Bool)
  | num (q : ℚ)
  | str (s : String)
  | list (xs : ValueList)
  | dict (kvs : ValueDict)
deriving DecidableEq

inductive ValueList where
  | nil
  | cons (hd : Value) (tl : ValueList)
deriving DecidableEq

inductive ValueDict where
  | nil
  | cons (key : String) (val : Value) (tl : ValueDict)
deriving DecidableEq

end

/-- Length of an embedded Python list. -/
def ValueList.length : ValueList → Nat
  | .nil => 0
  | .cons _ tl => 1 + tl.length

/-- Zero-based element access in an embedded Python list. -/
def ValueList.get? : ValueList → Nat → Option Value
  | .nil, _ => none
  | .cons hd _, 0 => some hd
  | .cons _ tl, n + 1 => tl.get? n

/-- Length of an embedded Python dict. -/
def ValueDict.length : ValueDict → Nat
  | .nil => 0
  | .cons _ _ tl => 1 + tl.length

/-- Key lookup in an embedded Python dict (first occurrence). -/
def ValueDict.get : ValueDict → String → Option Value
  | .nil, _ => none
  | .cons k v tl, key => if k = key then some v else tl.get key

/-- A top-level Python mapping (dict of string keys). -/
abbrev Dict := List (String × Value)

/-- Build an embedded dict value from a top-level mapping. -/
def ValueDict.ofList : Dict → ValueDict
  | [] => .nil
  | (k, v) :: rest => .cons k v (ValueDict.ofList rest)

/-- Mapping lookup, as Python `d.get(key)`: first occurrence wins. -/
def dget {α : Type} : List (String × α) → String → Option α
  | [], _ => none
  | (k, v) :: rest, key => if k = key then some v else dget rest key

/-- Mapping update, as Python `d[key] = val`: replace the first occurrence in
place, else append at the end. -/
def dset {α : Type} : List (String × α) → String → α → List (String × α)
  | [], key, val => [(key, val)]
  | (k, v) :: rest, key, val =>
      if k = key then (k, val) :: rest else (k, v) :: dset rest key val

/-- Python truthiness of an embedded value. -/
def Value.truthy : Value → Bool
  | .null => false
  | .bool b => b
  | .num q => q ≠ 0
  | .str s => s ≠ ""
  | .list xs => xs ≠ ValueList.nil
  | .dict d => d ≠ ValueDict.nil

/-- Python `len` on an embedded value: defined on strings, lists and dicts,
a TypeError (here: `none`) on everything else. -/
def Value.pyLen : Value → Option Nat
  | .str s => some s.length
  | .list xs => some xs.length
  | .dict d => some d.length
  | _ => none

/-- Rendering of a rational as Python renders the numbers that occur in this
program (integers plainly, non-integers as a fraction; the exact text of
non-integer rendering is abstracted, no claim depends on it). -/
def numText (q : ℚ) : String :=
  if q.den = 1 then toString q.num else toString q.num ++ "/" ++ toString q.den

mutual

/-- Python `str()` of an embedded value, as used by the f-string in
`DecisionEngine._decide_rebooking`.  Container rendering approximates the
Python repr; no claim depends on the container or numeric text. -/
def Value.pyStr : Value → String
  | .null => "None"
  | .bool true => "True"
  | .bool false => "False"
  | .num q => numText q
  | .str s => s
  | .list xs => "[" ++ xs.pyStrItems ++ "]"
  | .dict d => "\x7b" ++ d.pyStrItems ++ "\x7d"

def ValueList.pyStrItems : ValueList → String
  | .nil => ""
  | .cons hd .nil => hd.pyStr
  | .cons hd tl => hd.pyStr ++ ", " ++ tl.pyStrItems

def ValueDict.pyStrItems : ValueDict → String
  | .nil => ""
  | .cons k v .nil => k ++ ": " ++ v.pyStr
  | .cons k v tl => k ++ ": " ++ v.pyStr ++ ", " ++ tl.pyStrItems

end

/-! ## Decision engine (src/agent/decision.py) -/

/-- Possible decision outcomes for the agent (class DecisionType). -/
inductive DecisionType where
  | automate
  | clarify
  | escalate
  | reject
deriving DecidableEq

/-- The string value of a DecisionType member. -/
def DecisionType.value : DecisionType → String
  | .automate => "automate"
  | .clarify => "clarify"
  | .escalate => "escalate"
  | .reject => "reject"

/-- Context for making a decision (dataclass DecisionContext).  The optional
record fields are embedded mappings; `available_slots` is an embedded list. -/
structure DecisionContext where
  customer_id : String
  intent : String
  goal : String
  customer_data : Option Dict := none
  eligibility : Option Dict := none
  available_slots : Option ValueList := none
  missed_appointment : Option Value := none
deriving DecidableEq

/-- DecisionEngine._decide_rebooking: decide whether to automatically rebook,
ask clarification, or escalate. -/
def DecisionEngine.decide_rebooking (context : DecisionContext) : Dict :=
  match context.eligibility with
  | none =>
      [("decision_type", .str DecisionType.escalate.value),
       ("reasoning", .str "Unable to verify customer eligibility"),
       ("next_action", .str "escalate_to_human"),
       ("confidence", .num 0.4)]
  | some elig =>
      if ¬ ((dget elig "eligible").getD (.bool false)).truthy then
        [("decision_type", .str DecisionType.escalate.value),
         ("reasoning",
           .str ("Customer not eligible: " ++ ((dget elig "reason").getD .null).pyStr)),
         ("next_action", .str "escalate_to_human"),
         ("confidence", .num 0.9)]
      else
        match context.available_slots with
        | none =>
            [("decision_type", .str DecisionType.escalate.value),
             ("reasoning", .str "No available appointment slots in the near future"),
             ("next_action", .str "escalate_to_human"),
             ("confidence", .num 0.85)]
        | some slots =>
            if slots.length = 0 then
              [("decision_type", .str DecisionType.escalate.value),
               ("reasoning", .str "No available appointment slots in the near future"),
               ("next_action", .str "escalate_to_human"),
               ("confidence", .num 0.85)]
            else
              match context.customer_data with
              | none =>
                  [("decision_type", .str DecisionType.clarify.value),
                   ("reasoning", .str "Need to verify customer identity"),
                   ("next_action", .str "ask_for_confirmation"),
                   ("confidence", .num 0.6),
                   ("clarification_needed",
                     .str "Can you confirm your name and account number?")]
              | some _ =>
                  [("decision_type", .str DecisionType.automate.value),
                   ("reasoning",
                     .str ("Customer is eligible, slots are available, and data is complete. " ++
                       "Proceeding with rebooking.")),
                   ("next_action", .str "rebook_appointment"),
                   ("confidence", .num 0.95),
                   ("recommended_slot", (slots.get? 0).getD .null)]

/-- DecisionEngine.evaluate: evaluate the situation and make a decision. -/
def DecisionEngine.evaluate (context : DecisionContext) : Dict :=
  if context.intent = "missed_appointment_rebook" then
    DecisionEngine.decide_rebooking context
  else
    [("decision_type", .str DecisionType.escalate.value),
     ("reasoning", .str "Intent not recognized; escalating to specialist"),
     ("next_action", .str "escalate_to_human"),
     ("confidence", .num 0.3)]

/-! ## The decision rules as the specification states them -/

/-- Projection of a decision mapping onto the fields the rule-order claim
constrains: outcome type, confidence, recommended slot, and whether a
clarification prompt is set.  The quoted reasoning fragments of the claim are
prose glosses of the code strings and are not part of the projection. -/
structure DecisionSummary where
  decision_type : Option Value
  confidence : Option Value
  recommended_slot : Option Value
  clarification_set : Bool
deriving DecidableEq

/-- Project a decision mapping onto its claim-relevant fields. -/
def decisionSummary (d : Dict) : DecisionSummary :=
  ⟨dget d "decision_type", dget d "confidence", dget d "recommended_slot",
   (dget d "clarification_needed").isSome⟩

/-- Rebooking rule list exactly as the specification words it, rule 2 read
literally: it fires only when `eligibility.eligible == false`, that is when the
key is present and equal to false.  Top-to-bottom, first match wins. -/
def rebookingRulesLiteral (context : DecisionContext) : DecisionSummary :=
  match context.eligibility with
  | none => ⟨some (.str "escalate"), some (.num 0.4), none, false⟩
  | some elig =>
      if dget elig "eligible" = some (.bool false) then
        ⟨some (.str "escalate"), some (.num 0.9), none, false⟩
      else
        match context.available_slots with
        | none => ⟨some (.str "escalate"), some (.num 0.85), none, false⟩
        | some slots =>
            if slots.length = 0 then
              ⟨some (.str "escalate"), some (.num 0.85), none, false⟩
            else
              match context.customer_data with
              | none => ⟨some (.str "clarify"), some (.num 0.6), none, true⟩
              | some _ =>
                  ⟨some (.str "automate"), some (.num 0.95),
                   some ((slots.get? 0).getD .null), false⟩

/-- Rebooking rule list with rule 2 amended to what the code computes: it
fires whenever `eligibility.get("eligible", False)` is falsy, that is when the
`eligible` key is absent or holds a falsy value, not only when it is literally
false. -/
def rebookingRulesAmended (context : DecisionContext) : DecisionSummary :=
  match context.eligibility with
  | none => ⟨some (.str "escalate"), some (.num 0.4), none, false⟩
  | some elig =>
      if ((dget elig "eligible").getD (.bool false)).truthy = false then
        ⟨some (.str "escalate"), some (.num 0.9), none, false⟩
      else
        match context.available_slots with
        | none => ⟨some (.str "escalate"), some (.num 0.85), none, false⟩
        | some slots =>
            if slots.length = 0 then
              ⟨some (.str "escalate"), some (.num 0.85), none, false⟩
            else
              match context.customer_data with
              | none => ⟨some (.str "clarify"), some (.num 0.6), none, true⟩
              | some _ =>
                  ⟨some (.str "automate"), some (.num 0.95),
                   some ((slots.get? 0).getD .null), false⟩

/-- A rebooking context whose eligibility record is present but has no
`eligible` key, with one available slot and full customer data. -/
def ctxNoEligibleKey : DecisionContext :=
  { customer_id := "cust_001"
    intent := "missed_appointment_rebook"
    goal := "Rebook the missed appointment"
    customer_data := some [("name", .str "Ana")]
    eligibility := some []
    available_slots := some (.cons (.dict (.cons "slot_id" (.str "slot_1") .nil)) .nil)
    missed_appointment := none }

/-- Claim C2, counterexample: on a context whose eligibility mapping lacks the
`eligible` key, the literal rule list of the claim reaches rule 5 and says
Automate with confidence 0.95, but the code escalates with confidence 0.9, so
the claim as stated is false on this input. -/
theorem C2_counterexample :
    decisionSummary (DecisionEngine.evaluate ctxNoEligibleKey) =
      ⟨some (.str "escalate"), some (.num 0.9), none, false⟩ ∧
    rebookingRulesLiteral ctxNoEligibleKey =
      ⟨some (.str "automate"), some (.num 0.95),
       some (.dict (.cons "slot_id" (.str "slot_1") .nil)), false⟩ ∧
    decisionSummary (DecisionEngine.evaluate ctxNoEligibleKey) ≠
      rebookingRulesLiteral ctxNoEligibleKey := by
  refine ⟨rfl, rfl, ?_⟩
  decide

/-- Claim C2, amended: for every context with the rebooking intent, evaluate
follows the claimed rule list top-to-bottom with first match winning, with
rule 2 amended to fire whenever the `eligible` entry is absent or falsy
rather than only when it equals false. -/
theorem C2_amended (c : DecisionContext)
    (h : c.intent = "missed_appointment_rebook") :
    decisionSummary (DecisionEngine.evaluate c) = rebookingRulesAmended c := by
  unfold DecisionEngine.evaluate
  rw [if_pos h]
  unfold DecisionEngine.decide_rebooking rebookingRulesAmended
  cases c.eligibility with
  | none => simp [decisionSummary, dget, DecisionType.value]
  | some elig =>
      cases he : ((dget elig "eligible").getD (.bool false)).truthy with
      | false =>
          simp only [he, Bool.false_eq_true, not_false_eq_true, if_true, if_pos rfl]
          simp [decisionSummary, dget, DecisionType.value]
      | true =>
          simp only [he, not_true_eq_false, if_false, Bool.true_eq_false]
          cases c.available_slots with
          | none => simp [decisionSummary, dget, DecisionType.value]
          | some slots =>
              dsimp only
              by_cases hlen : slots.length = 0
              · rw [if_pos hlen, if_pos hlen]
                simp [decisionSummary, dget, DecisionType.value]
              · rw [if_neg hlen, if_neg hlen]
                cases c.customer_data with
                | none => simp [decisionSummary, dget, DecisionType.value]
                | some cd => simp [decisionSummary, dget, DecisionType.value]

/-- Concrete instantiation of the amended claim C2 at the counterexample
context. -/
theorem C2_amended_witness :
    ctxNoEligibleKey.intent = "missed_appointment_rebook" ∧
    decisionSummary (DecisionEngine.evaluate ctxNoEligibleKey) =
      rebookingRulesAmended ctxNoEligibleKey :=
  ⟨rfl, C2_amended ctxNoEligibleKey rfl⟩

/-- A context that is not a rebooking request but whose eligibility record
says eligible = false. -/
def ctxIneligibleOtherIntent : DecisionContext :=
  { customer_id := "cust_002"
    intent := "billing_question"
    goal := "Resolve a billing question"
    eligibility := some [("eligible", .bool false),
                         ("reason", .str "exceeded missed appointment limit")] }

/-- Claim C6, counterexample: for a context whose intent is not the rebooking
intent, evaluate escalates with confidence 0.3 even when eligibility.eligible
is false, so the claimed confidence 0.9 does not hold regardless of the
intent. -/
theorem C6_counterexample :
    dget (DecisionEngine.evaluate ctxIneligibleOtherIntent) "confidence" =
      some (.num 0.3) ∧
    dget (DecisionEngine.evaluate ctxIneligibleOtherIntent) "confidence" ≠
      some (.num 0.9) := by
  have h : dget (DecisionEngine.evaluate ctxIneligibleOtherIntent) "confidence" =
      some (.num 0.3) := rfl
  refine ⟨h, ?_⟩
  rw [h]
  simp only [ne_eq, Option.some.injEq, Value.num.injEq]
  norm_num

/-- Claim C6, amended: for every context with the rebooking intent whose
eligibility mapping is present with eligible == false, evaluate returns an
escalate decision with confidence 0.9, regardless of all other fields. -/
theorem C6_amended (c : DecisionContext) (elig : Dict)
    (h1 : c.intent = "missed_appointment_rebook")
    (h2 : c.eligibility = some elig)
    (h3 : dget elig "eligible" = some (.bool false)) :
    dget (DecisionEngine.evaluate c) "decision_type" =
      some (.str DecisionType.escalate.value) ∧
    dget (DecisionEngine.evaluate c) "confidence" = some (.num 0.9) := by
  unfold DecisionEngine.evaluate
  rw [if_pos h1]
  unfold DecisionEngine.decide_rebooking
  rw [h2]
  simp [h3, Value.truthy, dget]

/-- An eligibility record with eligible explicitly false. -/
def eligRecordFalse : Dict :=
  [("eligible", .bool false), ("reason", .str "Bronze tier customers cannot rebook after a miss")]

/-- A rebooking context whose eligibility record says eligible = false while
all other data is complete. -/
def ctxIneligibleRebook : DecisionContext :=
  { customer_id := "cust_004"
    intent := "missed_appointment_rebook"
    goal := "Rebook the missed appointment"
    customer_data := some [("name", .str "Cy")]
    eligibility := some eligRecordFalse
    available_slots := some (.cons (.dict (.cons "slot_id" (.str "slot_2") .nil)) .nil) }

/-- Concrete instantiation of the amended claim C6: an ineligible rebooking
context escalates with confidence 0.9. -/
theorem C6_amended_witness :
    ctxIneligibleRebook.intent = "missed_appointment_rebook" ∧
    ctxIneligibleRebook.eligibility = some eligRecordFalse ∧
    dget eligRecordFalse "eligible" = some (.bool false) ∧
    dget (DecisionEngine.evaluate ctxIneligibleRebook) "decision_type" =
      some (.str DecisionType.escalate.value) ∧
    dget (DecisionEngine.evaluate ctxIneligibleRebook) "confidence" =
      some (.num 0.9) := by
  refine ⟨rfl, rfl, rfl, ?_⟩
  exact C6_amended ctxIneligibleRebook eligRecordFalse rfl rfl rfl

/-- Helper for the outcome-closure claim: evaluate always yields one of the
three produced decision type strings. -/
theorem evaluate_decision_type_cases (c : DecisionContext) :
    dget (DecisionEngine.evaluate c) "decision_type" = some (.str "automate") ∨
    dget (DecisionEngine.evaluate c) "decision_type" = some (.str "clarify") ∨
    dget (DecisionEngine.evaluate c) "decision_type" = some (.str "escalate") := by
  unfold DecisionEngine.evaluate
  by_cases h : c.intent = "missed_appointment_rebook"
  · rw [if_pos h]
    unfold DecisionEngine.decide_rebooking
    cases c.eligibility with
    | none => right; right; simp [dget, DecisionType.value]
    | some elig =>
        cases he : ((dget elig "eligible").getD (.bool false)).truthy with
        | false =>
            simp only [he, Bool.false_eq_true, not_false_eq_true, if_true]
            right; right; simp [dget, DecisionType.value]
        | true =>
            simp only [he, not_true_eq_false, if_false, Bool.true_eq_false]
            cases c.available_slots with
            | none => right; right; simp [dget, DecisionType.value]
            | some slots =>
                dsimp only
                by_cases hlen : slots.length = 0
                · rw [if_pos hlen]
                  right; right; simp [dget, DecisionType.value]
                · rw [if_neg hlen]
                  cases c.customer_data with
                  | none => right; left; simp [dget, DecisionType.value]
                  | some cd => left; simp [dget, DecisionType.value]
  · rw [if_neg h]
    right; right; simp [dget, DecisionType.value]

/-- Claim C9: for every DecisionContext, evaluate produces a decision whose
decision_type is automate, clarify or escalate; the reject outcome declared in
DecisionType is never produced. -/
theorem C9_no_reject (c : DecisionContext) :
    (dget (DecisionEngine.evaluate c) "decision_type" =
        some (.str DecisionType.automate.value) ∨
     dget (DecisionEngine.evaluate c) "decision_type" =
        some (.str DecisionType.clarify.value) ∨
     dget (DecisionEngine.evaluate c) "decision_type" =
        some (.str DecisionType.escalate.value)) ∧
    dget (DecisionEngine.evaluate c) "decision_type" ≠
      some (.str DecisionType.reject.value) := by
  refine ⟨evaluate_decision_type_cases c, ?_⟩
  rcases evaluate_decision_type_cases c with h | h | h <;>
    rw [h] <;> simp [DecisionType.value]

/-- A rebooking context whose eligibility record has a reason but no
`eligible` key at all. -/
def ctxMissingEligibleKey : DecisionContext :=
  { customer_id := "cust_003"
    intent := "missed_appointment_rebook"
    goal := "Rebook the missed appointment"
    customer_data := some [("name", .str "Bo")]
    eligibility := some [("reason", .str "record incomplete")]
    available_slots := some (.cons (.dict (.cons "slot_id" (.str "slot_9") .nil)) .nil) }

/-- Claim C10: a present eligibility mapping without the `eligible` key is
treated as ineligible: evaluate escalates with confidence 0.9 and a reasoning
built from eligibility.reason, for every rebooking context. -/
theorem C10_missing_key_ineligible (c : DecisionContext) (elig : Dict)
    (h1 : c.intent = "missed_appointment_rebook")
    (h2 : c.eligibility = some elig)
    (h3 : dget elig "eligible" = none) :
    DecisionEngine.evaluate c =
      [("decision_type", .str DecisionType.escalate.value),
       ("reasoning",
         .str ("Customer not eligible: " ++ ((dget elig "reason").getD .null).pyStr)),
       ("next_action", .str "escalate_to_human"),
       ("confidence", .num 0.9)] := by
  unfold DecisionEngine.evaluate
  rw [if_pos h1]
  unfold DecisionEngine.decide_rebooking
  rw [h2]
  simp [h3, Value.truthy]

/-- Concrete instantiation of claim C10: the missing-key context escalates
with the reason interpolated into the reasoning string. -/
theorem C10_witness :
    ctxMissingEligibleKey.intent = "missed_appointment_rebook" ∧
    ctxMissingEligibleKey.eligibility = some [("reason", .str "record incomplete")] ∧
    dget [("reason", Value.str "record incomplete")] "eligible" = none ∧
    DecisionEngine.evaluate ctxMissingEligibleKey =
      [("decision_type", .str DecisionType.escalate.value),
       ("reasoning", .str "Customer not eligible: record incomplete"),
       ("next_action", .str "escalate_to_human"),
       ("confidence", .num 0.9)] := by
  refine ⟨rfl, rfl, rfl, ?_⟩
  exact C10_missing_key_ineligible ctxMissingEligibleKey
    [("reason", .str "record incomplete")] rfl rfl rfl

/-! ## Plan executor (src/agent/executor.py) -/

/-- A Python runtime error escaping the executor: an access to a missing
artifact (KeyError on the artifact store), a missing dict key, an index out of
range, or a subscript or len applied to a value of the wrong type. -/
inductive ExecError where
  | missingArtifact (srcStep : String)
  | missingKey (key : String)
  | badIndex
  | typeError
deriving DecidableEq

/-- Whether an executor error is the missing-artifact KeyError raised by
parameter resolution. -/
def ExecError.is_missing_artifact : ExecError → Bool
  | .missingArtifact _ => true
  | _ => false

/-- A params_from_prev reference: the source uses tuples of length 2
(source tool, key) or length 4 (source tool, key, index, inner key). -/
inductive Ref where
  | pair (srcStep srcKey : String)
  | quad (srcStep srcKey : String) (idx : ℤ) (innerKey : String)
deriving DecidableEq

/-- The source tool name a reference points at. -/
def Ref.src : Ref → String
  | .pair s _ => s
  | .quad s _ _ _ => s

/-- An on_fail fallback branch: a tool name and its own fixed params. -/
structure OnFail where
  tool : String
  params : Dict
deriving DecidableEq

/-- One plan step, with the keys the executor reads: `tool`, optional `params`
and `fixed_params` and `params_from_prev` and `expect` (empty when absent in
the step mapping), and optional `on_fail`. -/
structure Step where
  tool : String
  params : Dict := []
  fixed_params : Dict := []
  params_from_prev : List (String × Ref) := []
  expect : Dict := []
  on_fail : Option OnFail := none
deriving DecidableEq

/-- The artifact store: tool name to that tool's most recent result mapping
(the source annotates it Dict[str, Dict[str, Any]]). -/
abbrev Artifacts := List (String × Dict)

/-- Normalisation of a Python integer index against a length: negative
indices wrap around once; out-of-range indices give none. -/
def pyNormIndex (i : ℤ) (n : Nat) : Option Nat :=
  let j := if i < 0 then i + n else i
  if 0 ≤ j ∧ j < n then some j.toNat else none

/-- Python indexing `v[idx]` with an integer index: lists and strings index
with negative wraparound, anything else is a TypeError. -/
def Value.pyIndex : Value → ℤ → Except ExecError Value
  | .list xs, i =>
      match pyNormIndex i xs.length with
      | none => .error .badIndex
      | some j =>
          match xs.get? j with
          | some v => .ok v
          | none => .error .badIndex
  | .str s, i =>
      match pyNormIndex i s.length with
      | none => .error .badIndex
      | some j =>
          match s.toList.get? j with
          | some ch => .ok (.str (String.mk [ch]))
          | none => .error .badIndex
  | _, _ => .error .typeError

/-- Python subscripting `v[key]` with a string key: a KeyError on dicts
without the key, a TypeError on non-dicts. -/
def Value.pyGetItem : Value → String → Except ExecError Value
  | .dict d, key =>
      match d.get key with
      | some v => .ok v
      | none => .error (.missingKey key)
  | _, _ => .error .typeError

/-- Resolution of one params_from_prev reference against the artifact store:
`self.artifacts[src_step][src_key]` and, for length-4 specs, the further
`[idx][inner_key]` lookups. -/
def resolve_ref (arts : Artifacts) : Ref → Except ExecError Value
  | .pair src key =>
      match dget arts src with
      | none => .error (.missingArtifact src)
      | some d =>
          match dget d key with
          | some v => .ok v
          | none => .error (.missingKey key)
  | .quad src key idx inner =>
      match dget arts src with
      | none => .error (.missingArtifact src)
      | some d =>
          match dget d key with
          | none => .error (.missingKey key)
          | some v => do
              let w ← v.pyIndex idx
              w.pyGetItem inner

/-- The params_from_prev loop of PlanExecutor._resolve_params. -/
def resolve_prev (arts : Artifacts) : List (String × Ref) → Dict →
    Except ExecError Dict
  | [], acc => .ok acc
  | (k, r) :: rest, acc =>
      match resolve_ref arts r with
      | .error e => .error e
      | .ok v => resolve_prev arts rest (dset acc k v)

/-- PlanExecutor._resolve_params: start from `params`, then `fixed_params`,
then resolve each params_from_prev reference. -/
def resolve_params (arts : Artifacts) (step : Step) : Except ExecError Dict :=
  let base := step.params.foldl (fun d kv => dset d kv.1 kv.2) []
  let base := step.fixed_params.foldl (fun d kv => dset d kv.1 kv.2) base
  resolve_prev arts step.params_from_prev base

/-- The expectation loop of PlanExecutor._verify: the key slots_non_empty
requires a truthy `slots` of nonzero length (len may raise a TypeError on a
truthy non-sized value); every other key requires equality between the result
entry (None when absent) and the expected value. -/
def verify_entries (result : Dict) : Dict → Except ExecError Bool
  | [] => .ok true
  | (key, val) :: rest =>
      if key = "slots_non_empty" then
        let s := (dget result "slots").getD .null
        if s.truthy = false then .ok false
        else
          match s.pyLen with
          | none => .error .typeError
          | some n => if n = 0 then .ok false else verify_entries result rest
      else
        if (dget result key).getD .null ≠ val then .ok false
        else verify_entries result rest

/-- PlanExecutor._verify: an empty expectation passes immediately. -/
def verify (result : Dict) (expect : Dict) : Except ExecError Bool :=
  if expect = [] then .ok true else verify_entries result expect

/-- The tool interface the executor runs against, with the exact shape of
ToolRegistry.run: a result mapping, or a Python error raised by a tool
runner. -/
abbrev ToolsFn := String → Dict → Except ExecError Dict

/-- The success path at the end of PlanExecutor.run: status resolved, and the
well-known rebooking and confirmation artifacts projected into the final
context. -/
def success_ctx (arts : Artifacts) : Dict :=
  let ctx := dset [] "status" (.str "resolved")
  let ctx :=
    match dget arts "rebook_appointment" with
    | some rb => dset ctx "appointment_details" ((dget rb "appointment_details").getD .null)
    | none => ctx
  match dget arts "send_confirmation" with
  | some sc => dset ctx "confirmation" (.dict (ValueDict.ofList sc))
  | none => ctx

/-- The step loop of PlanExecutor.run, with the artifact store and the
actions-taken list threaded explicitly.  Returns the pair the method returns
together with the artifact store the executor instance keeps. -/
def runSteps (tools : ToolsFn) :
    List Step → Artifacts → List String →
    Except ExecError ((List String × Dict) × Artifacts)
  | [], arts, acc => .ok ((acc, success_ctx arts), arts)
  | step :: rest, arts, acc =>
      match resolve_params arts step with
      | .error e => .error e
      | .ok params =>
          match tools step.tool params with
          | .error e => .error e
          | .ok result =>
              let arts1 := dset arts step.tool result
              let acc1 := acc ++ [step.tool]
              match verify result step.expect with
              | .error e => .error e
              | .ok true => runSteps tools rest arts1 acc1
              | .ok false =>
                  match step.on_fail with
                  | some fb =>
                      match tools fb.tool fb.params with
                      | .error e => .error e
                      | .ok fail_result =>
                          let arts2 := dset arts1 fb.tool fail_result
                          let ctx := dset (dset [] "escalation_ticket"
                              ((dget fail_result "escalation_ticket").getD .null))
                            "status" (.str "escalated")
                          .ok ((acc1 ++ [fb.tool], ctx), arts2)
                  | none =>
                      let ctx := dset (dset [] "status" (.str "failed"))
                        "reason" ((dget result "reason").getD (.str "Step failed"))
                      .ok ((acc1, ctx), arts1)

/-- A plan executor instance: its only state is the artifact store created in
PlanExecutor.__init__ and never cleared. -/
structure PlanExecutor where
  artifacts : Artifacts
deriving DecidableEq

/-- A freshly constructed executor: empty artifact store. -/
def PlanExecutor.new : PlanExecutor := ⟨[]⟩

/-- PlanExecutor.run on a plan: fresh actions list and final context per call,
but the artifact store carried over from the instance and kept on it. -/
def PlanExecutor.run (tools : ToolsFn) (ex : PlanExecutor) (plan : List Step) :
    Except ExecError ((List String × Dict) × PlanExecutor) :=
  (runSteps tools plan ex.artifacts []).map (fun r => (r.1, ⟨r.2⟩))

/-! ## Executor lemmas -/

/-- Lookup after a dict update: the updated key reads the new value, every
other key is unchanged. -/
theorem dget_dset {α : Type} (l : List (String × α)) (k key : String) (v : α) :
    dget (dset l k v) key = if key = k then some v else dget l key := by
  induction l with
  | nil =>
      by_cases h : key = k
      · simp [dset, dget, h]
      · simp [dset, dget, h, Ne.symm h]
  | cons hd tl ih =>
      obtain ⟨k1, v1⟩ := hd
      by_cases h1 : k1 = k
      · subst h1
        by_cases h2 : key = k1
        · simp [dset, dget, h2]
        · simp [dset, dget, h2, Ne.symm h2]
      · by_cases h2 : k1 = key
        · subst h2
          simp [dset, dget, h1, Ne.symm h1]
        · simp [dset, dget, h1, h2, ih]

/-- Whether each step of a plan, run in order from a given artifact store,
resolves its parameters, invokes its tool without a raise, and passes its
expect verification. -/
def all_steps_pass (tools : ToolsFn) : List Step → Artifacts → Bool
  | [], _ => true
  | step :: rest, arts =>
      match resolve_params arts step with
      | .error _ => false
      | .ok params =>
          match tools step.tool params with
          | .error _ => false
          | .ok result =>
              match verify result step.expect with
              | .ok true => all_steps_pass tools rest (dset arts step.tool result)
              | _ => false

/-- The artifact store after running a list of steps that all pass (junk
outside that hypothesis). -/
def arts_after (tools : ToolsFn) : List Step → Artifacts → Artifacts
  | [], arts => arts
  | step :: rest, arts =>
      match resolve_params arts step with
      | .error _ => arts
      | .ok params =>
          match tools step.tool params with
          | .error _ => arts
          | .ok result => arts_after tools rest (dset arts step.tool result)

/-- One passing step advances the run loop to the rest of the plan with the
result recorded and the action appended. -/
theorem runSteps_cons_pass (tools : ToolsFn) (step : Step) (rest : List Step)
    (arts : Artifacts) (acc : List String) (params result : Dict)
    (hres : resolve_params arts step = .ok params)
    (htool : tools step.tool params = .ok result)
    (hver : verify result step.expect = .ok true) :
    runSteps tools (step :: rest) arts acc =
      runSteps tools rest (dset arts step.tool result) (acc ++ [step.tool]) := by
  simp only [runSteps, hres, htool, hver]

/-- One passing step advances the artifact accumulator likewise. -/
theorem arts_after_cons_pass (tools : ToolsFn) (step : Step) (rest : List Step)
    (arts : Artifacts) (params result : Dict)
    (hres : resolve_params arts step = .ok params)
    (htool : tools step.tool params = .ok result) :
    arts_after tools (step :: rest) arts =
      arts_after tools rest (dset arts step.tool result) := by
  simp only [arts_after, hres, htool]

/-- Running a plan whose leading steps all pass is running the remaining
steps from the accumulated artifacts and actions. -/
theorem runSteps_append_of_pass (tools : ToolsFn) (steps : List Step) :
    ∀ (rest : List Step) (arts : Artifacts) (acc : List String),
      all_steps_pass tools steps arts = true →
      runSteps tools (steps ++ rest) arts acc =
        runSteps tools rest (arts_after tools steps arts)
          (acc ++ steps.map (fun s => s.tool)) := by
  induction steps with
  | nil =>
      intro rest arts acc _
      simp [arts_after]
  | cons step stl ih =>
      intro rest arts acc hpass
      unfold all_steps_pass at hpass
      rw [List.cons_append]
      cases hres : resolve_params arts step with
      | error e => simp [hres] at hpass
      | ok params =>
          rw [hres] at hpass
          dsimp only at hpass
          cases htool : tools step.tool params with
          | error e => simp [htool] at hpass
          | ok result =>
              rw [htool] at hpass
              dsimp only at hpass
              cases hver : verify result step.expect with
              | error e => simp [hver] at hpass
              | ok b =>
                  rw [hver] at hpass
                  cases b with
                  | false => simp at hpass
                  | true =>
                      dsimp only at hpass
                      rw [runSteps_cons_pass tools step (stl ++ rest) arts acc params result
                        hres htool hver]
                      rw [ih rest _ _ hpass]
                      rw [arts_after_cons_pass tools step stl arts params result hres htool]
                      simp only [List.map_cons]
                      congr 1
                      simp

/-- The final context of the success path always carries status resolved. -/
theorem success_ctx_status (arts : Artifacts) :
    dget (success_ctx arts) "status" = some (.str "resolved") := by
  unfold success_ctx
  cases h1 : dget arts "rebook_appointment" with
  | none =>
      cases h2 : dget arts "send_confirmation" with
      | none => rfl
      | some sc => simp [dget_dset, dget, dset]
  | some rb =>
      cases h2 : dget arts "send_confirmation" with
      | none => simp [dget_dset, dget, dset]
      | some sc => simp [dget_dset, dget, dset]

/-- Claim C3: for every plan all of whose steps pass their expect
verification, run returns the actions list of the plans tools in plan order,
one entry per step, and a final context with status resolved. -/
theorem C3_all_pass_resolved (tools : ToolsFn) (plan : List Step)
    (hpass : all_steps_pass tools plan [] = true) :
    ∃ ctx ex,
      PlanExecutor.run tools PlanExecutor.new plan =
        .ok ((plan.map (fun s => s.tool), ctx), ex) ∧
      (plan.map (fun s => s.tool)).length = plan.length ∧
      dget ctx "status" = some (.str "resolved") := by
  have h := runSteps_append_of_pass tools plan [] [] [] hpass
  rw [List.append_nil] at h
  refine ⟨success_ctx (arts_after tools plan []), ⟨arts_after tools plan []⟩, ?_, by simp,
    success_ctx_status _⟩
  unfold PlanExecutor.run
  have hnew : PlanExecutor.new.artifacts = ([] : Artifacts) := rfl
  rw [hnew, h]
  simp only [runSteps]
  simp [Except.map]

/-- Claim C4: when the first failing step declares a fallback, the run
invokes the fallback tool on its own fixed params, records its artifact and
action, escalates, exposes the fallback escalation ticket when present, and
stops after exactly the failing step plus its fallback. -/
theorem C4_first_failure_with_fallback (tools : ToolsFn)
    (pre : List Step) (step : Step) (post : List Step) (fb : OnFail)
    (params result fail_result : Dict)
    (hpre : all_steps_pass tools pre [] = true)
    (hres : resolve_params (arts_after tools pre []) step = .ok params)
    (htool : tools step.tool params = .ok result)
    (hver : verify result step.expect = .ok false)
    (hfb : step.on_fail = some fb)
    (hfbtool : tools fb.tool fb.params = .ok fail_result) :
    ∃ ctx ex,
      PlanExecutor.run tools PlanExecutor.new (pre ++ step :: post) =
        .ok ((pre.map (fun s => s.tool) ++ [step.tool, fb.tool], ctx), ex) ∧
      (pre.map (fun s => s.tool) ++ [step.tool, fb.tool]).length = pre.length + 2 ∧
      dget ctx "status" = some (.str "escalated") ∧
      (∀ w, dget fail_result "escalation_ticket" = some w →
        dget ctx "escalation_ticket" = some w) ∧
      dget ex.artifacts fb.tool = some fail_result := by
  have h := runSteps_append_of_pass tools pre (step :: post) [] [] hpre
  refine ⟨dset (dset [] "escalation_ticket"
        ((dget fail_result "escalation_ticket").getD .null)) "status" (.str "escalated"),
    ⟨dset (dset (arts_after tools pre []) step.tool result) fb.tool fail_result⟩,
    ?_, by simp, ?_, ?_, ?_⟩
  · unfold PlanExecutor.run
    have hnew : PlanExecutor.new.artifacts = ([] : Artifacts) := rfl
    rw [hnew, h]
    simp only [runSteps, hres, htool, hver, hfb, hfbtool]
    simp [Except.map]
  · simp [dget_dset]
  · intro w hw
    simp [dget_dset, hw]
  · simp [dget_dset]

/-- Claim C5: when the first failing step declares no fallback, the run
stops with status failed right after the failing step, exposing the failing
results reason. -/
theorem C5_first_failure_no_fallback (tools : ToolsFn)
    (pre : List Step) (step : Step) (post : List Step)
    (params result : Dict)
    (hpre : all_steps_pass tools pre [] = true)
    (hres : resolve_params (arts_after tools pre []) step = .ok params)
    (htool : tools step.tool params = .ok result)
    (hver : verify result step.expect = .ok false)
    (hfb : step.on_fail = none) :
    ∃ ctx ex,
      PlanExecutor.run tools PlanExecutor.new (pre ++ step :: post) =
        .ok ((pre.map (fun s => s.tool) ++ [step.tool], ctx), ex) ∧
      (pre.map (fun s => s.tool) ++ [step.tool]).length = pre.length + 1 ∧
      dget ctx "status" = some (.str "failed") ∧
      (∀ w, dget result "reason" = some w → dget ctx "reason" = some w) := by
  have h := runSteps_append_of_pass tools pre (step :: post) [] [] hpre
  refine ⟨dset (dset [] "status" (.str "failed"))
      "reason" ((dget result "reason").getD (.str "Step failed")),
    ⟨dset (arts_after tools pre []) step.tool result⟩, ?_, by simp, ?_, ?_⟩
  · unfold PlanExecutor.run
    have hnew : PlanExecutor.new.artifacts = ([] : Artifacts) := rfl
    rw [hnew, h]
    simp only [runSteps, hres, htool, hver, hfb]
    simp [Except.map]
  · simp [dget_dset]
  · intro w hw
    simp [dget_dset, hw]

/-! ## Concrete executor scenarios -/

/-- A concrete tool table for the executor witnesses: two tools that succeed,
an escalation tool that returns a ticket, and everything else failing with a
reason. -/
def demoTools : ToolsFn := fun name _params =>
  if name = "alpha_check" then .ok [("success", .bool true)]
  else if name = "beta_update" then .ok [("success", .bool true)]
  else if name = "escalate_to_human" then
    .ok [("success", .bool true), ("escalation_ticket", .str "esc_1")]
  else .ok [("success", .bool false), ("reason", .str "backend rejected the call")]

/-- A step that passes its verification under demoTools. -/
def demoPassStep : Step :=
  { tool := "alpha_check", expect := [("success", .bool true)] }

/-- A two-step plan that fully passes under demoTools. -/
def demoPassPlan : List Step :=
  [demoPassStep, { tool := "beta_update", expect := [("success", .bool true)] }]

/-- The failing result demoTools returns for unknown-to-it tool names. -/
def demoFailResult : Dict :=
  [("success", .bool false), ("reason", .str "backend rejected the call")]

/-- The ticket-bearing result of the demo escalation tool. -/
def demoTicketResult : Dict :=
  [("success", .bool true), ("escalation_ticket", .str "esc_1")]

/-- A fallback branch routing to the demo escalation tool. -/
def demoOnFail : OnFail :=
  { tool := "escalate_to_human", params := [("reason", .str "verification failed")] }

/-- A step that fails verification under demoTools and declares a fallback. -/
def demoFailStep : Step :=
  { tool := "gamma_rebook", expect := [("success", .bool true)], on_fail := some demoOnFail }

/-- A step that fails verification under demoTools with no fallback. -/
def demoFailStepBare : Step :=
  { tool := "gamma_rebook", expect := [("success", .bool true)] }

/-- Concrete instantiation of claim C3 on the two-step passing plan. -/
theorem C3_witness :
    all_steps_pass demoTools demoPassPlan [] = true ∧
    (∃ ctx ex,
      PlanExecutor.run demoTools PlanExecutor.new demoPassPlan =
        .ok ((demoPassPlan.map (fun s => s.tool), ctx), ex) ∧
      (demoPassPlan.map (fun s => s.tool)).length = demoPassPlan.length ∧
      dget ctx "status" = some (.str "resolved")) :=
  ⟨rfl, C3_all_pass_resolved demoTools demoPassPlan rfl⟩

/-- Concrete instantiation of claim C4: one passing step, then a failing step
whose fallback escalates with a ticket. -/
theorem C4_witness :
    all_steps_pass demoTools [demoPassStep] [] = true ∧
    resolve_params (arts_after demoTools [demoPassStep] []) demoFailStep = .ok [] ∧
    demoTools demoFailStep.tool [] = .ok demoFailResult ∧
    verify demoFailResult demoFailStep.expect = .ok false ∧
    demoFailStep.on_fail = some demoOnFail ∧
    demoTools demoOnFail.tool demoOnFail.params = .ok demoTicketResult ∧
    (∃ ctx ex,
      PlanExecutor.run demoTools PlanExecutor.new ([demoPassStep] ++ demoFailStep :: []) =
        .ok (([demoPassStep].map (fun s => s.tool) ++ [demoFailStep.tool, demoOnFail.tool],
          ctx), ex) ∧
      ([demoPassStep].map (fun s => s.tool) ++
        [demoFailStep.tool, demoOnFail.tool]).length = [demoPassStep].length + 2 ∧
      dget ctx "status" = some (.str "escalated") ∧
      (∀ w, dget demoTicketResult "escalation_ticket" = some w →
        dget ctx "escalation_ticket" = some w) ∧
      dget ex.artifacts demoOnFail.tool = some demoTicketResult) :=
  ⟨rfl, rfl, rfl, rfl, rfl, rfl,
   C4_first_failure_with_fallback demoTools [demoPassStep] demoFailStep [] demoOnFail
     [] demoFailResult demoTicketResult rfl rfl rfl rfl rfl rfl⟩

/-- Concrete instantiation of claim C5: one passing step, then a failing step
with no fallback. -/
theorem C5_witness :
    all_steps_pass demoTools [demoPassStep] [] = true ∧
    resolve_params (arts_after demoTools [demoPassStep] []) demoFailStepBare = .ok [] ∧
    demoTools demoFailStepBare.tool [] = .ok demoFailResult ∧
    verify demoFailResult demoFailStepBare.expect = .ok false ∧
    demoFailStepBare.on_fail = none ∧
    (∃ ctx ex,
      PlanExecutor.run demoTools PlanExecutor.new ([demoPassStep] ++ demoFailStepBare :: []) =
        .ok (([demoPassStep].map (fun s => s.tool) ++ [demoFailStepBare.tool], ctx), ex) ∧
      ([demoPassStep].map (fun s => s.tool) ++ [demoFailStepBare.tool]).length =
        [demoPassStep].length + 1 ∧
      dget ctx "status" = some (.str "failed") ∧
      (∀ w, dget demoFailResult "reason" = some w → dget ctx "reason" = some w)) :=
  ⟨rfl, rfl, rfl, rfl, rfl,
   C5_first_failure_no_fallback demoTools [demoPassStep] demoFailStepBare []
     [] demoFailResult rfl rfl rfl rfl rfl⟩

/-! ## Artifact persistence across runs (claim C1) -/

/-- The result the rebooking tool returns in the cross-run leak scenario. -/
def leakRebookResult : Dict :=
  [("success", .bool true), ("appointment_details", .str "appointment of customer A")]

/-- Tool table for the leak scenario: rebooking returns customer-A details,
everything else plainly succeeds. -/
def leakTools : ToolsFn := fun name _params =>
  if name = "rebook_appointment" then .ok leakRebookResult
  else .ok [("success", .bool true)]

/-- First run: a single rebooking step with no expectation. -/
def leakFirstPlan : List Step := [{ tool := "rebook_appointment" }]

/-- Second, unrelated run: a single eligibility-check step. -/
def leakSecondPlan : List Step := [{ tool := "check_eligibility" }]

/-- The executor state after the first run: the artifact store still holds
the rebooking artifact. -/
def exAfterFirstRun : PlanExecutor := ⟨[("rebook_appointment", leakRebookResult)]⟩

/-- Claim C1, evaluated at the failing input: the artifact store survives run
end.  The first run leaves the rebooking artifact on the executor; a second
run of an unrelated plan on the same executor then exposes customer-A
appointment details in its final context, while the same plan on a fresh
executor exposes nothing.  So artifacts recorded in one run are visible to
later runs of the same executor, contradicting the claim, whose per-run
discard is the documented intent. -/
theorem C1_artifacts_not_discarded :
    PlanExecutor.run leakTools PlanExecutor.new leakFirstPlan =
      .ok (((["rebook_appointment"]),
        [("status", .str "resolved"),
         ("appointment_details", .str "appointment of customer A")]),
        exAfterFirstRun) ∧
    PlanExecutor.run leakTools exAfterFirstRun leakSecondPlan =
      .ok (((["check_eligibility"]),
        [("status", .str "resolved"),
         ("appointment_details", .str "appointment of customer A")]),
        ⟨[("rebook_appointment", leakRebookResult),
          ("check_eligibility", [("success", .bool true)])]⟩) ∧
    PlanExecutor.run leakTools PlanExecutor.new leakSecondPlan =
      .ok (((["check_eligibility"]), [("status", .str "resolved")]),
        ⟨[("check_eligibility", [("success", .bool true)])]⟩) ∧
    dget [("status", Value.str "resolved"),
      ("appointment_details", Value.str "appointment of customer A")]
      "appointment_details" = some (.str "appointment of customer A") ∧
    dget [("status", Value.str "resolved")] "appointment_details" = none :=
  ⟨rfl, rfl, rfl, rfl, rfl⟩

/-! ## Tool registry (src/agent/tools.py) -/

/-- The CX system behind the tools (class CXSystemMock in src/agent/actions.py),
abstracted as one function per method: the mock is backed by JSON files and the
wall clock, so its outputs are taken as parameters of the model.  Each function
takes the embedded values the tool runner extracts from params and returns the
result mapping. -/
structure CXSystemMock where
  check_eligibility : Value → Dict
  get_available_slots : Value → Value → Value
  get_customer_missed_appointment : Value → Value
  rebook_appointment : Value → Value → Dict
  send_confirmation : Value → Value → Dict
  escalate_to_human : Value → Value → Dict
  log_agent_interaction : Value → Value → Value → Value → Value → Dict

/-- A single capability the agent can execute (class Tool): name, description,
and a runner from a params mapping to a result mapping, which may raise a
KeyError on a required param. -/
structure Tool where
  name : String
  description : String
  runner : Dict → Except ExecError Dict

/-- Read a required param, as the runners subscript `p["key"]`. -/
def requireParam (p : Dict) (key : String) : Except ExecError Value :=
  match dget p key with
  | some v => .ok v
  | none => .error (.missingKey key)

/-- The registry contents built by ToolRegistry._register_all: each _register
assigns into the name-keyed tool mapping. -/
def register_all (cx : CXSystemMock) : List (String × Tool) :=
  let reg : List (String × Tool) := []
  let reg := dset reg "check_eligibility"
    ⟨"check_eligibility", "Check if customer is eligible to rebook",
     fun p => do
       let c ← requireParam p "customer_id"
       pure (cx.check_eligibility c)⟩
  let reg := dset reg "get_available_slots"
    ⟨"get_available_slots", "List next available appointment slots",
     fun p => do
       let c ← requireParam p "customer_id"
       pure [("success", .bool true),
             ("slots", cx.get_available_slots c ((dget p "limit").getD (.num 5)))]⟩
  let reg := dset reg "get_missed_appointment"
    ⟨"get_missed_appointment", "Fetch most recent missed appointment details",
     fun p => do
       let c ← requireParam p "customer_id"
       pure [("success", .bool true),
             ("missed", cx.get_customer_missed_appointment c)]⟩
  let reg := dset reg "rebook_appointment"
    ⟨"rebook_appointment", "Rebook the appointment into a selected slot",
     fun p => do
       let c ← requireParam p "customer_id"
       let s ← requireParam p "slot_id"
       pure (cx.rebook_appointment c s)⟩
  let reg := dset reg "send_confirmation"
    ⟨"send_confirmation", "Send SMS/email confirmation with appointment details",
     fun p => do
       let c ← requireParam p "customer_id"
       let d ← requireParam p "appointment_details"
       pure (cx.send_confirmation c d)⟩
  let reg := dset reg "escalate_to_human"
    ⟨"escalate_to_human", "Create escalation ticket and route to queue",
     fun p => do
       let c ← requireParam p "customer_id"
       pure (cx.escalate_to_human c ((dget p "reason").getD (.str "Escalation")))⟩
  let reg := dset reg "log_interaction"
    ⟨"log_interaction", "Log agent interaction for analytics",
     fun p => do
       let c ← requireParam p "customer_id"
       let i ← requireParam p "intent"
       let d ← requireParam p "decision"
       pure (cx.log_agent_interaction c i d
         ((dget p "actions").getD (.list .nil))
         ((dget p "status").getD (.str "unknown")))⟩
  reg

/-- Registry and facade for all available tools (class ToolRegistry). -/
structure ToolRegistry where
  tools : List (String × Tool)

/-- ToolRegistry.__init__ with its _register_all call. -/
def ToolRegistry.ofMock (cx : CXSystemMock) : ToolRegistry :=
  ⟨register_all cx⟩

/-- ToolRegistry.run: a structured unknown-tool failure on a name miss, else
the tool runner. -/
def ToolRegistry.run (reg : ToolRegistry) (name : String) (params : Dict) :
    Except ExecError Dict :=
  match dget reg.tools name with
  | none => .ok [("success", .bool false), ("reason", .str ("Unknown tool: " ++ name))]
  | some t => t.runner params

/-- Whether the first character list occurs as a contiguous run of the
second. -/
def containsSubChars (sub : List Char) : List Char → Bool
  | [] => sub.isEmpty
  | c :: cs => List.isPrefixOf sub (c :: cs) || containsSubChars sub cs

/-- Case-sensitive substring containment, to state the reason-containment
phrasing of the unknown-tool claim. -/
def containsSub (s sub : String) : Bool :=
  containsSubChars sub.toList s.toList

/-- A trivial CX backend for concrete registry evaluation. -/
def cxTrivial : CXSystemMock :=
  { check_eligibility := fun _ => []
    get_available_slots := fun _ _ => .list .nil
    get_customer_missed_appointment := fun _ => .null
    rebook_appointment := fun _ _ => []
    send_confirmation := fun _ _ => []
    escalate_to_human := fun _ _ => []
    log_agent_interaction := fun _ _ _ _ _ => [] }

/-- Claim C7, counterexample: the unknown-name result capitalises the reason
as "Unknown tool: <name>", so it is not the claimed mapping with reason
"unknown tool: <name>" and its reason does not contain the lower-case phrase
"unknown tool". -/
theorem C7_counterexample :
    ToolRegistry.run (ToolRegistry.ofMock cxTrivial) "teleport" [] =
      .ok [("success", .bool false), ("reason", .str "Unknown tool: teleport")] ∧
    ([("success", Value.bool false), ("reason", Value.str "Unknown tool: teleport")] : Dict) ≠
      [("success", .bool false), ("reason", .str "unknown tool: teleport")] ∧
    containsSub "Unknown tool: teleport" "unknown tool" = false := by
  refine ⟨rfl, by decide, by decide⟩

/-- Claim C7, amended: for every name with no registry entry and every params
mapping, run returns the failure mapping with reason "Unknown tool: <name>"
(capital U, so containing "unknown tool" only up to case) and never raises. -/
theorem C7_unknown_tool (cx : CXSystemMock) (name : String) (params : Dict)
    (h : dget (ToolRegistry.ofMock cx).tools name = none) :
    ToolRegistry.run (ToolRegistry.ofMock cx) name params =
      .ok [("success", .bool false), ("reason", .str ("Unknown tool: " ++ name))] := by
  unfold ToolRegistry.run
  rw [h]

/-- Concrete instantiation of the amended claim C7 at an unregistered name. -/
theorem C7_witness :
    dget (ToolRegistry.ofMock cxTrivial).tools "teleport" = none ∧
    ToolRegistry.run (ToolRegistry.ofMock cxTrivial) "teleport" [("x", .null)] =
      .ok [("success", .bool false), ("reason", .str ("Unknown tool: " ++ "teleport"))] :=
  ⟨rfl, C7_unknown_tool cxTrivial "teleport" [("x", .null)] rfl⟩

/-! ## Planner (src/agent/planner.py) -/

/-- Planner.plan: a fixed four-step topology for the rebooking intent and a
single escalation step for every other intent.  The goal argument is accepted
and unused, as in the source; customer_id is read from the context mapping
(None when absent). -/
def Planner.plan (intent : String) (goalText : String) (context : Dict) : List Step :=
  let _ := goalText
  let customer_id := (dget context "customer_id").getD .null
  if intent = "missed_appointment_rebook" then
    [{ tool := "check_eligibility"
       params := [("customer_id", customer_id)]
       expect := [("eligible", .bool true)]
       on_fail := some { tool := "escalate_to_human"
                         params := [("customer_id", customer_id),
                                    ("reason", .str "Customer not eligible for rebooking")] } },
     { tool := "get_available_slots"
       params := [("customer_id", customer_id), ("limit", .num 5)]
       expect := [("slots_non_empty", .bool true)]
       on_fail := some { tool := "escalate_to_human"
                         params := [("customer_id", customer_id),
                                    ("reason", .str "No available slots")] } },
     { tool := "rebook_appointment"
       params_from_prev := [("slot_id", .quad "get_available_slots" "slots" 0 "slot_id")]
       fixed_params := [("customer_id", customer_id)]
       expect := [("success", .bool true)] },
     { tool := "send_confirmation"
       params_from_prev :=
         [("appointment_details", .pair "rebook_appointment" "appointment_details")]
       fixed_params := [("customer_id", customer_id)]
       expect := [("success", .bool true)] }]
  else
    [{ tool := "escalate_to_human"
       params := [("customer_id", customer_id), ("reason", .str "Intent unknown")]
       expect := [("success", .bool true)] }]

/-! ## No reference ever misses an artifact (claim C8) -/

/-- Well-formed reference topology: every params_from_prev reference of each
step points at a tool already recorded, or at the tool of an earlier step of
the list. -/
def sources_ok (recorded : List String) : List Step → Bool
  | [] => true
  | step :: rest =>
      (step.params_from_prev.all fun kr => decide (kr.2.src ∈ recorded)) &&
      sources_ok (step.tool :: recorded) rest

/-- Bind of an ok value in the Except monad. -/
theorem except_bind_ok {α β : Type} (a : α) (f : α → Except ExecError β) :
    (Except.ok a >>= f : Except ExecError β) = f a := rfl

/-- Bind of an error in the Except monad. -/
theorem except_bind_err {α β : Type} (e : ExecError) (f : α → Except ExecError β) :
    (Except.error e >>= f : Except ExecError β) = .error e := rfl

/-- Python getitem errors are key or type errors, never the artifact-store
KeyError. -/
theorem pyGetItem_not_missing (v : Value) (key : String) (e : ExecError)
    (h : v.pyGetItem key = .error e) : e.is_missing_artifact = false := by
  cases v with
  | dict d =>
      unfold Value.pyGetItem at h
      dsimp only at h
      cases hg : d.get key with
      | some w => rw [hg] at h; simp at h
      | none =>
          rw [hg] at h
          simp only [Except.error.injEq] at h
          subst h
          rfl
  | null => simp [Value.pyGetItem] at h; subst h; rfl
  | bool b => simp [Value.pyGetItem] at h; subst h; rfl
  | num q => simp [Value.pyGetItem] at h; subst h; rfl
  | str s => simp [Value.pyGetItem] at h; subst h; rfl
  | list xs => simp [Value.pyGetItem] at h; subst h; rfl

/-- Python indexing errors are index or type errors, never the artifact-store
KeyError. -/
theorem pyIndex_not_missing (v : Value) (i : ℤ) (e : ExecError)
    (h : v.pyIndex i = .error e) : e.is_missing_artifact = false := by
  cases v with
  | list xs =>
      unfold Value.pyIndex at h
      dsimp only at h
      cases hn : pyNormIndex i xs.length with
      | none => rw [hn] at h; simp only [Except.error.injEq] at h; subst h; rfl
      | some j =>
          rw [hn] at h
          dsimp only at h
          cases hg : xs.get? j with
          | some w => rw [hg] at h; simp at h
          | none => rw [hg] at h; simp only [Except.error.injEq] at h; subst h; rfl
  | str s =>
      unfold Value.pyIndex at h
      dsimp only at h
      cases hn : pyNormIndex i s.length with
      | none => rw [hn] at h; simp only [Except.error.injEq] at h; subst h; rfl
      | some j =>
          rw [hn] at h
          dsimp only at h
          cases hg : s.toList.get? j with
          | some w => rw [hg] at h; simp at h
          | none => rw [hg] at h; simp only [Except.error.injEq] at h; subst h; rfl
  | null => simp [Value.pyIndex] at h; subst h; rfl
  | bool b => simp [Value.pyIndex] at h; subst h; rfl
  | num q => simp [Value.pyIndex] at h; subst h; rfl
  | dict d => simp [Value.pyIndex] at h; subst h; rfl

/-- A reference whose source tool has an artifact can fail only on the inner
lookups, never with the artifact-store KeyError. -/
theorem resolve_ref_not_missing (arts : Artifacts) (r : Ref) (e : ExecError)
    (hsrc : (dget arts r.src).isSome) (h : resolve_ref arts r = .error e) :
    e.is_missing_artifact = false := by
  cases r with
  | pair src key =>
      simp only [Ref.src] at hsrc
      obtain ⟨d, hd⟩ := Option.isSome_iff_exists.mp hsrc
      unfold resolve_ref at h
      dsimp only at h
      rw [hd] at h
      dsimp only at h
      cases hk : dget d key with
      | some v => rw [hk] at h; simp at h
      | none => rw [hk] at h; simp only [Except.error.injEq] at h; subst h; rfl
  | quad src key idx inner =>
      simp only [Ref.src] at hsrc
      obtain ⟨d, hd⟩ := Option.isSome_iff_exists.mp hsrc
      unfold resolve_ref at h
      dsimp only at h
      rw [hd] at h
      dsimp only at h
      cases hk : dget d key with
      | none => rw [hk] at h; simp only [Except.error.injEq] at h; subst h; rfl
      | some v =>
          rw [hk] at h
          dsimp only at h
          cases hi : v.pyIndex idx with
          | error e2 =>
              rw [hi, except_bind_err] at h
              simp only [Except.error.injEq] at h
              subst h
              exact pyIndex_not_missing v idx _ hi
          | ok w =>
              rw [hi, except_bind_ok] at h
              exact pyGetItem_not_missing w inner e h

/-- The params_from_prev loop inherits the property. -/
theorem resolve_prev_not_missing (arts : Artifacts) :
    ∀ (prev : List (String × Ref)) (acc : Dict) (e : ExecError),
      (∀ kr ∈ prev, (dget arts kr.2.src).isSome) →
      resolve_prev arts prev acc = .error e →
      e.is_missing_artifact = false := by
  intro prev
  induction prev with
  | nil => intro acc e _ h; simp [resolve_prev] at h
  | cons kr rest ih =>
      intro acc e hsrc h
      obtain ⟨k, r⟩ := kr
      unfold resolve_prev at h
      cases hr : resolve_ref arts r with
      | error e2 =>
          rw [hr] at h
          dsimp only at h
          simp only [Except.error.injEq] at h
          subst h
          exact resolve_ref_not_missing arts r _ (hsrc (k, r) (List.mem_cons_self _ _)) hr
      | ok v =>
          rw [hr] at h
          dsimp only at h
          exact ih _ e (fun kr hm => hsrc kr (List.mem_cons_of_mem _ hm)) h

/-- Parameter resolution with all reference sources recorded never raises the
artifact-store KeyError. -/
theorem resolve_params_not_missing (arts : Artifacts) (step : Step) (e : ExecError)
    (hsrc : ∀ kr ∈ step.params_from_prev, (dget arts kr.2.src).isSome)
    (h : resolve_params arts step = .error e) :
    e.is_missing_artifact = false := by
  unfold resolve_params at h
  exact resolve_prev_not_missing arts step.params_from_prev _ e hsrc h

/-- Verification raises only type errors, never the artifact-store
KeyError. -/
theorem verify_entries_not_missing (result : Dict) :
    ∀ (expect : Dict) (e : ExecError),
      verify_entries result expect = .error e → e.is_missing_artifact = false := by
  intro expect
  induction expect with
  | nil => intro e h; simp [verify_entries] at h
  | cons kv rest ih =>
      intro e h
      obtain ⟨key, val⟩ := kv
      unfold verify_entries at h
      by_cases hk : key = "slots_non_empty"
      · rw [if_pos hk] at h
        dsimp only at h
        by_cases ht : ((dget result "slots").getD Value.null).truthy = false
        · rw [if_pos ht] at h; simp at h
        · rw [if_neg ht] at h
          cases hl : ((dget result "slots").getD Value.null).pyLen with
          | none => rw [hl] at h; simp only [Except.error.injEq] at h; subst h; rfl
          | some n =>
              rw [hl] at h
              dsimp only at h
              by_cases hn : n = 0
              · rw [if_pos hn] at h; simp at h
              · rw [if_neg hn] at h; exact ih e h
      · rw [if_neg hk] at h
        by_cases hv : (dget result key).getD Value.null ≠ val
        · rw [if_pos hv] at h; simp at h
        · rw [if_neg hv] at h; exact ih e h

/-- PlanExecutor._verify never raises the artifact-store KeyError. -/
theorem verify_not_missing (result expect : Dict) (e : ExecError)
    (h : verify result expect = .error e) : e.is_missing_artifact = false := by
  unfold verify at h
  by_cases hx : expect = []
  · rw [if_pos hx] at h; simp at h
  · rw [if_neg hx] at h; exact verify_entries_not_missing result expect e h

/-- The run loop over steps whose reference topology is well formed never
raises the artifact-store KeyError, provided no tool raises it either. -/
theorem runSteps_not_missing (tools : ToolsFn)
    (htools : ∀ name params e, tools name params = .error e →
      e.is_missing_artifact = false) :
    ∀ (steps : List Step) (recorded : List String) (arts : Artifacts)
      (acc : List String) (e : ExecError),
      (∀ n, n ∈ recorded → (dget arts n).isSome) →
      sources_ok recorded steps = true →
      runSteps tools steps arts acc = .error e →
      e.is_missing_artifact = false := by
  intro steps
  induction steps with
  | nil => intro recorded arts acc e _ _ h; simp [runSteps] at h
  | cons step rest ih =>
      intro recorded arts acc e hrec hsok h
      simp only [sources_ok, Bool.and_eq_true] at hsok
      obtain ⟨hsrcs, hsok2⟩ := hsok
      have hsrc : ∀ kr ∈ step.params_from_prev, (dget arts kr.2.src).isSome := by
        intro kr hm
        exact hrec _ (of_decide_eq_true (List.all_eq_true.mp hsrcs kr hm))
      simp only [runSteps] at h
      cases hres : resolve_params arts step with
      | error e2 =>
          rw [hres] at h
          dsimp only at h
          simp only [Except.error.injEq] at h
          subst h
          exact resolve_params_not_missing arts step _ hsrc hres
      | ok params =>
          rw [hres] at h
          dsimp only at h
          cases htool : tools step.tool params with
          | error e2 =>
              rw [htool] at h
              dsimp only at h
              simp only [Except.error.injEq] at h
              subst h
              exact htools _ _ _ htool
          | ok result =>
              rw [htool] at h
              dsimp only at h
              cases hver : verify result step.expect with
              | error e2 =>
                  rw [hver] at h
                  dsimp only at h
                  simp only [Except.error.injEq] at h
                  subst h
                  exact verify_not_missing result step.expect _ hver
              | ok b =>
                  rw [hver] at h
                  cases b with
                  | true =>
                      dsimp only at h
                      refine ih (step.tool :: recorded) (dset arts step.tool result)
                        (acc ++ [step.tool]) e ?_ hsok2 h
                      intro n hn
                      rw [dget_dset]
                      by_cases hne : n = step.tool
                      · simp [hne]
                      · rw [if_neg hne]
                        rcases List.mem_cons.mp hn with h1 | h1
                        · exact absurd h1 hne
                        · exact hrec n h1
                  | false =>
                      dsimp only at h
                      cases hof : step.on_fail with
                      | none => rw [hof] at h; dsimp only at h; simp at h
                      | some fb =>
                          rw [hof] at h
                          dsimp only at h
                          cases hfb : tools fb.tool fb.params with
                          | error e2 =>
                              rw [hfb] at h
                              dsimp only at h
                              simp only [Except.error.injEq] at h
                              subst h
                              exact htools _ _ _ hfb
                          | ok fr => rw [hfb] at h; dsimp only at h; simp at h

/-- A reference to a tool with no recorded artifact raises the fatal
artifact-store KeyError. -/
theorem resolve_ref_missing (arts : Artifacts) (r : Ref)
    (h : dget arts r.src = none) :
    resolve_ref arts r = .error (.missingArtifact r.src) := by
  cases r with
  | pair src key => simp only [Ref.src] at h ⊢; simp [resolve_ref, h]
  | quad src key idx inner => simp only [Ref.src] at h ⊢; simp [resolve_ref, h]

/-- A step whose first reference points at a missing artifact makes parameter
resolution fail fatally with that KeyError. -/
theorem resolve_params_missing (arts : Artifacts) (step : Step)
    (k : String) (r : Ref) (prevRest : List (String × Ref))
    (hprev : step.params_from_prev = (k, r) :: prevRest)
    (h : dget arts r.src = none) :
    resolve_params arts step = .error (.missingArtifact r.src) := by
  unfold resolve_params
  rw [hprev]
  simp only [resolve_prev, resolve_ref_missing arts r h]

/-- A missing required param raises the params KeyError, never the
artifact-store KeyError. -/
theorem requireParam_not_missing (p : Dict) (k : String) (e : ExecError)
    (h : requireParam p k = .error e) : e.is_missing_artifact = false := by
  unfold requireParam at h
  cases hg : dget p k with
  | some v => rw [hg] at h; simp at h
  | none => rw [hg] at h; simp only [Except.error.injEq] at h; subst h; rfl

/-- Errors raised by the registered tool runners are missing-param KeyErrors
or the unknown-name failure result, never the artifact-store KeyError. -/
theorem registry_run_not_missing (cx : CXSystemMock) (name : String)
    (params : Dict) (e : ExecError)
    (h : ToolRegistry.run (ToolRegistry.ofMock cx) name params = .error e) :
    e.is_missing_artifact = false := by
  unfold ToolRegistry.run at h
  cases hreg : dget (ToolRegistry.ofMock cx).tools name with
  | none => rw [hreg] at h; simp at h
  | some t =>
      rw [hreg] at h
      dsimp only at h
      simp only [ToolRegistry.ofMock, register_all, dset, dget, String.reduceEq,
        if_true, if_false] at hreg
      split at hreg
      · injection hreg with ht; subst ht
        dsimp only at h
        cases hc : requireParam params "customer_id" with
        | error e2 =>
            rw [hc, except_bind_err] at h
            simp only [Except.error.injEq] at h
            subst h
            exact requireParam_not_missing params _ _ hc
        | ok c => rw [hc, except_bind_ok] at h; simp [pure, Except.pure] at h
      · split at hreg
        · injection hreg with ht; subst ht
          dsimp only at h
          cases hc : requireParam params "customer_id" with
          | error e2 =>
              rw [hc, except_bind_err] at h
              simp only [Except.error.injEq] at h
              subst h
              exact requireParam_not_missing params _ _ hc
          | ok c => rw [hc, except_bind_ok] at h; simp [pure, Except.pure] at h
        · split at hreg
          · injection hreg with ht; subst ht
            dsimp only at h
            cases hc : requireParam params "customer_id" with
            | error e2 =>
                rw [hc, except_bind_err] at h
                simp only [Except.error.injEq] at h
                subst h
                exact requireParam_not_missing params _ _ hc
            | ok c => rw [hc, except_bind_ok] at h; simp [pure, Except.pure] at h
          · split at hreg
            · injection hreg with ht; subst ht
              dsimp only at h
              cases hc : requireParam params "customer_id" with
              | error e2 =>
                  rw [hc, except_bind_err] at h
                  simp only [Except.error.injEq] at h
                  subst h
                  exact requireParam_not_missing params _ _ hc
              | ok c =>
                  rw [hc, except_bind_ok] at h
                  cases hs : requireParam params "slot_id" with
                  | error e2 =>
                      rw [hs, except_bind_err] at h
                      simp only [Except.error.injEq] at h
                      subst h
                      exact requireParam_not_missing params _ _ hs
                  | ok s => rw [hs, except_bind_ok] at h; simp [pure, Except.pure] at h
            · split at hreg
              · injection hreg with ht; subst ht
                dsimp only at h
                cases hc : requireParam params "customer_id" with
                | error e2 =>
                    rw [hc, except_bind_err] at h
                    simp only [Except.error.injEq] at h
                    subst h
                    exact requireParam_not_missing params _ _ hc
                | ok c =>
                    rw [hc, except_bind_ok] at h
                    cases hs : requireParam params "appointment_details" with
                    | error e2 =>
                        rw [hs, except_bind_err] at h
                        simp only [Except.error.injEq] at h
                        subst h
                        exact requireParam_not_missing params _ _ hs
                    | ok s => rw [hs, except_bind_ok] at h; simp [pure, Except.pure] at h
              · split at hreg
                · injection hreg with ht; subst ht
                  dsimp only at h
                  cases hc : requireParam params "customer_id" with
                  | error e2 =>
                      rw [hc, except_bind_err] at h
                      simp only [Except.error.injEq] at h
                      subst h
                      exact requireParam_not_missing params _ _ hc
                  | ok c => rw [hc, except_bind_ok] at h; simp [pure, Except.pure] at h
                · split at hreg
                  · injection hreg with ht; subst ht
                    dsimp only at h
                    cases hc : requireParam params "customer_id" with
                    | error e2 =>
                        rw [hc, except_bind_err] at h
                        simp only [Except.error.injEq] at h
                        subst h
                        exact requireParam_not_missing params _ _ hc
                    | ok c =>
                        rw [hc, except_bind_ok] at h
                        cases hi : requireParam params "intent" with
                        | error e2 =>
                            rw [hi, except_bind_err] at h
                            simp only [Except.error.injEq] at h
                            subst h
                            exact requireParam_not_missing params _ _ hi
                        | ok i =>
                            rw [hi, except_bind_ok] at h
                            cases hd : requireParam params "decision" with
                            | error e2 =>
                                rw [hd, except_bind_err] at h
                                simp only [Except.error.injEq] at h
                                subst h
                                exact requireParam_not_missing params _ _ hd
                            | ok dd =>
                                rw [hd, except_bind_ok] at h
                                simp [pure, Except.pure] at h
                  · exact absurd hreg (by simp)

/-- Claim C8: a planner-produced plan run on a fresh executor against the
registry never fails with the missing-artifact KeyError (every reference
names a tool recorded earlier, and execution reaches a referencing step only
after that tool ran); and when a referenced artifact is nevertheless missing,
resolution fails fatally with that KeyError rather than returning a
business-level failure result. -/
theorem C8_planner_refs_resolve :
    (∀ (cx : CXSystemMock) (intent goalText : String) (context : Dict) (e : ExecError),
      PlanExecutor.run (ToolRegistry.run (ToolRegistry.ofMock cx)) PlanExecutor.new
          (Planner.plan intent goalText context) = .error e →
      e.is_missing_artifact = false) ∧
    (∀ (tools : ToolsFn) (arts : Artifacts) (step : Step) (rest : List Step)
        (acc : List String) (k : String) (r : Ref) (prevRest : List (String × Ref)),
      step.params_from_prev = (k, r) :: prevRest →
      dget arts r.src = none →
      runSteps tools (step :: rest) arts acc = .error (.missingArtifact r.src)) := by
  constructor
  · intro cx intent goalText context e h
    unfold PlanExecutor.run at h
    cases hrun : runSteps (ToolRegistry.run (ToolRegistry.ofMock cx))
        (Planner.plan intent goalText context) PlanExecutor.new.artifacts [] with
    | ok v => rw [hrun] at h; simp [Except.map] at h
    | error e2 =>
        rw [hrun] at h
        have he : e2 = e := by simpa [Except.map] using h
        subst he
        refine runSteps_not_missing _
          (fun n p err hh => registry_run_not_missing cx n p err hh)
          (Planner.plan intent goalText context) [] PlanExecutor.new.artifacts [] e2
          (by intro n hn; simp at hn) ?_ hrun
        by_cases hi : intent = "missed_appointment_rebook"
        · subst hi
          rfl
        · dsimp only [Planner.plan]
          rw [if_neg hi]
          rfl
  · intro tools arts step rest acc k r prevRest hprev hmiss
    simp only [runSteps, resolve_params_missing arts step k r prevRest hprev hmiss]

/-- A CX backend making the rebooking plan reach step three with a slots
value that is a truthy string, so that the inner slot_id lookup raises a
TypeError: a fatal run error that is not the missing-artifact KeyError. -/
def cxOddSlots : CXSystemMock :=
  { cxTrivial with
    check_eligibility := fun _ => [("eligible", .bool true)]
    get_available_slots := fun _ _ => .str "xx" }

/-- A step referencing a tool that never ran. -/
def strandedStep : Step :=
  { tool := "rebook_appointment"
    params_from_prev := [("slot_id", Ref.quad "missing_tool" "slots" 0 "slot_id")] }

/-- Concrete instantiation of claim C8: an erroring planner-plan run raises a
non-missing-artifact error, and a stranded reference raises exactly the
missing-artifact KeyError. -/
theorem C8_witness :
    PlanExecutor.run (ToolRegistry.run (ToolRegistry.ofMock cxOddSlots)) PlanExecutor.new
        (Planner.plan "missed_appointment_rebook" "Rebook the missed appointment"
          [("customer_id", .str "c1")]) = .error .typeError ∧
    ExecError.is_missing_artifact .typeError = false ∧
    strandedStep.params_from_prev =
      [("slot_id", Ref.quad "missing_tool" "slots" 0 "slot_id")] ∧
    dget ([] : Artifacts) (Ref.quad "missing_tool" "slots" 0 "slot_id").src = none ∧
    runSteps demoTools [strandedStep] [] [] =
      .error (.missingArtifact (Ref.quad "missing_tool" "slots" 0 "slot_id").src) :=
  ⟨rfl,
   C8_planner_refs_resolve.1 cxOddSlots "missed_appointment_rebook"
     "Rebook the missed appointment" [("customer_id", .str "c1")] .typeError rfl,
   rfl, rfl,
   C8_planner_refs_resolve.2 demoTools [] strandedStep [] [] "slot_id"
     (Ref.quad "missing_tool" "slots" 0 "slot_id") [] rfl rfl⟩

end AgenticCX
